import Mathlib

/-!
Shallow embedding of the aleph MediachainNode peer layer
(src/peer/node.js, given as src/unnamed/part_000).

The node's methods are modelled as pure functions over an explicit
environment `Env` that stands for the external collaborators the source
calls into: the transport's peer book, the dial primitive, the multihash
and multiaddr decoders, the directory's lookup responses, and the remote
peer's data-fetch responses.  Each operation returns its result together
with the list of network effects (dials, heartbeat scheduling) it
performed, in order.
-/

namespace Aleph

/-- Peer identity, carried by its base-58 string representation
(PeerId in the source). -/
structure PeerId where
  b58 : String
deriving DecidableEq, Repr

/-- PeerId.toB58String from the source: the base-58 rendering of the id. -/
def PeerId.toB58String (p : PeerId) : String := p.b58

/-- A single multiaddr, kept as its string form. -/
structure Multiaddr where
  addr : String
deriving DecidableEq, Repr

/-- PeerInfo: identity plus a set of network addresses. -/
structure PeerInfo where
  id : PeerId
  multiaddrs : List Multiaddr
deriving DecidableEq, Repr

/-- The protocol identifiers from PROTOCOLS in lib/peer/constants
(only the tags matter to the node logic under verification). -/
inductive Protocol where
  | nodePing
  | nodeId
  | nodeQuery
  | nodeData
  | dirRegister
  | dirLookup
deriving DecidableEq, Repr

/-- Modelled from the spec: peerInfoProtoMarshal (src/peer/util.js is not
under src/) marshals a PeerInfo into its wire message form carrying the
identity string and the address strings. -/
structure PeerInfoMsg where
  id : String
  addrs : List String
deriving DecidableEq, Repr

/-- Modelled from the spec: peerInfoProtoMarshal turns a PeerInfo into a
PeerInfoMsg. -/
def peerInfoProtoMarshal (pi : PeerInfo) : PeerInfoMsg :=
  { id := pi.id.b58, addrs := pi.multiaddrs.map (fun a => a.addr) }

/-- The register request message built in MediachainNode.register:
an object holding the marshalled peer info. -/
structure RegisterPeerMsg where
  info : PeerInfoMsg
deriving DecidableEq, Repr

/-- The wire response of a directory lookup; the peer field is absent
when the directory has no record for the requested id. -/
structure LookupPeerResponse where
  peer : Option PeerInfo
deriving DecidableEq, Repr

/-- Modelled from the spec: lookupResponseToPeerInfo (src/peer/util.js is
not under src/) translates a LookupPeerResponse into a PeerAddressInfo,
"which may be absent/null, signaling the directory has no record". -/
def lookupResponseToPeerInfo (r : LookupPeerResponse) : Option PeerInfo :=
  r.peer

/-- Errors raised by the node layer.  Each constructor corresponds to one
of the Error values thrown or rejected with in the source; string fields
carry the wrapped underlying message. -/
inductive Err where
  | noDirectoryRegister
  | noDirectoryLookup
  | invalidPeerId (msg : String)
  | invalidMultiaddr (msg : String)
  | unableToLocatePeer
  | dialFailure (msg : String)
  | fetchFailure (msg : String)
deriving DecidableEq, Repr

/-- Network-visible effects performed by a node operation, in order. -/
inductive Effect where
  | dial (target : PeerInfo) (protocol : Protocol)
  | scheduleHeartbeat (req : RegisterPeerMsg) (intervalMs : Nat) (abortable : Bool)
deriving DecidableEq, Repr

/-- A content-addressed data object returned by the node.data protocol
(DataObjectMsg in the source). -/
structure DataObject where
  key : String
  data : String
deriving DecidableEq, Repr

/-- The external collaborators of the node, as the source observes them:
library decoders, the transport peer book, the dial primitive, and the
remote peers' responses. -/
structure Env where
  multihashFromB58 : String → Except String Unit
  peerBook : String → Option PeerInfo
  dial : PeerInfo → Protocol → Except String Unit
  inflateMultiaddr : String → Except String PeerInfo
  lookupResponse : String → LookupPeerResponse
  dataFetch : List String → Except String (List DataObject)

/-- Node state: the local peer info, the directory binding (at most one
PeerInfo or none) and the info message. -/
structure Node where
  peerInfo : PeerInfo
  directory : Option PeerInfo
  infoMessage : String

/-- The heartbeat interval passed to pullRepeatedly in
MediachainNode.register: 5000 * 60 milliseconds. -/
def registerHeartbeatIntervalMs : Nat := 5000 * 60

/-- Modelled from the spec: pullRepeatedly (src/peer/util.js is not under
src/) "emits a registration message immediately and again every fixed
interval for as long as the underlying connection stays open, using an
abortable timer".  Emission k occurs at time k * intervalMs; it happens
iff the connection is still open at that time and the loop has not been
aborted before it. -/
def heartbeatEmits (intervalMs : Nat) (connOpenMs : Nat)
    (abortedAt : Option Nat) (k : Nat) : Bool :=
  decide (k * intervalMs ≤ connOpenMs) &&
    (match abortedAt with
     | none => true
     | some t => decide (k * intervalMs < t))

/-- MediachainNode.register: with no directory binding, reject with the
no-known-directory error before any dial; otherwise dial the directory on
dir.register, and on success wire up the heartbeat pipeline
(pullRepeatedly through the abortable stage into the connection) and
resolve true immediately, without waiting for the loop. -/
def Node.register (n : Node) (env : Env) : Except Err Bool × List Effect :=
  match n.directory with
  | none => (Except.error Err.noDirectoryRegister, [])
  | some dir =>
    match env.dial dir Protocol.dirRegister with
    | Except.error e =>
      (Except.error (Err.dialFailure e), [Effect.dial dir Protocol.dirRegister])
    | Except.ok _ =>
      (Except.ok true,
        [Effect.dial dir Protocol.dirRegister,
         Effect.scheduleHeartbeat
           { info := peerInfoProtoMarshal n.peerInfo }
           registerHeartbeatIntervalMs true])

/-- The part of MediachainNode.lookup after the argument has been reduced
to a base-58 string: peer-book consultation, the directory-binding check,
then the dial on dir.lookup and the decoding of exactly one response. -/
def Node.lookupResolved (n : Node) (env : Env) (peerId : String) :
    Except Err (Option PeerInfo) × List Effect :=
  match env.peerBook peerId with
  | some pi => (Except.ok (some pi), [])
  | none =>
    match n.directory with
    | none => (Except.error Err.noDirectoryLookup, [])
    | some dir =>
      match env.dial dir Protocol.dirLookup with
      | Except.error e =>
        (Except.error (Err.dialFailure e), [Effect.dial dir Protocol.dirLookup])
      | Except.ok _ =>
        (Except.ok (lookupResponseToPeerInfo (env.lookupResponse peerId)),
          [Effect.dial dir Protocol.dirLookup])

/-- MediachainNode.lookup: a PeerId argument is converted to its base-58
string; a string argument is first validated through
Multihash.fromB58String, rejecting with the invalid-multihash error on
failure; then resolution proceeds via lookupResolved. -/
def Node.lookup (n : Node) (env : Env) (peerId : Sum String PeerId) :
    Except Err (Option PeerInfo) × List Effect :=
  match peerId with
  | Sum.inr pid => n.lookupResolved env pid.toB58String
  | Sum.inl s =>
    match env.multihashFromB58 s with
    | Except.error msg => (Except.error (Err.invalidPeerId msg), [])
    | Except.ok _ => n.lookupResolved env s

/-- A peer reference as accepted by the peer-targeting operations:
a full PeerInfo, a PeerId object, or a string. -/
inductive PeerReference where
  | info (pi : PeerInfo)
  | pid (p : PeerId)
  | str (s : String)
deriving DecidableEq, Repr

/-- The address-syntax test from _lookupIfNeeded, peer.startsWith with
the slash marker: true iff the string has a first character and it is
the slash. -/
def stringStartsWithSlash (s : String) : Bool :=
  match s.data with
  | [] => false
  | c :: _ => c = '/'

/-- MediachainNode._lookupIfNeeded: a PeerInfo is returned as-is; a string
beginning with the slash marker is decoded directly via inflateMultiaddr,
decode failure rejecting with the invalid-multiaddr error; anything else
is delegated to lookup. -/
def Node.lookupIfNeeded (n : Node) (env : Env) (peer : PeerReference) :
    Except Err (Option PeerInfo) × List Effect :=
  match peer with
  | PeerReference.info pi => (Except.ok (some pi), [])
  | PeerReference.str s =>
    if stringStartsWithSlash s then
      match env.inflateMultiaddr s with
      | Except.error msg => (Except.error (Err.invalidMultiaddr msg), [])
      | Except.ok pi => (Except.ok (some pi), [])
    else
      n.lookup env (Sum.inl s)
  | PeerReference.pid p => n.lookup env (Sum.inr p)

/-- MediachainNode.openConnection: resolve the reference via
_lookupIfNeeded, convert an absent resolution into the
unable-to-locate-peer error, then dial the resolved peer on the
requested protocol. -/
def Node.openConnection (n : Node) (env : Env) (peer : PeerReference)
    (protocol : Protocol) : Except Err PeerInfo × List Effect :=
  match n.lookupIfNeeded env peer with
  | (Except.error e, effs) => (Except.error e, effs)
  | (Except.ok none, effs) => (Except.error Err.unableToLocatePeer, effs)
  | (Except.ok (some pi), effs) =>
    match env.dial pi protocol with
    | Except.error msg =>
      (Except.error (Err.dialFailure msg), effs ++ [Effect.dial pi protocol])
    | Except.ok _ => (Except.ok pi, effs ++ [Effect.dial pi protocol])

/-- A field of a query-result value: either a still-unresolved reference
to an external object id, or a fetched payload already in place. -/
inductive RefField where
  | ref (id : String)
  | payload (obj : DataObject)
deriving DecidableEq, Repr

/-- A query-result value (QueryResultValueMsg): statement-shaped data
with some fields that may reference external object ids. -/
structure QueryResultValueMsg where
  base : String
  fields : List RefField
deriving DecidableEq, Repr

/-- A query-result stream element (QueryResultMsg): an envelope that may
carry a value payload; envelopes with no value carry other message kinds
and are detected by the null check in the pipeline. -/
structure QueryResultMsg where
  value : Option QueryResultValueMsg
  raw : String
deriving DecidableEq, Repr

/-- Modelled from the spec: objectIdsForQueryResult (src/peer/util.js is
not under src/) collects the external object ids a query-result value
references. -/
def objectIdsForQueryResult (r : QueryResultValueMsg) : List String :=
  r.fields.filterMap (fun f =>
    match f with
    | RefField.ref id => some id
    | RefField.payload _ => none)

/-- Modelled from the spec: expandQueryResult (src/peer/util.js is not
under src/) replaces each referenced object id in the value with its
fetched payload from the data results, in place, leaving the rest of the
value intact. -/
def expandQueryResult (r : QueryResultValueMsg) (dataResults : List DataObject) :
    QueryResultValueMsg :=
  { r with
    fields := r.fields.map (fun f =>
      match f with
      | RefField.payload o => RefField.payload o
      | RefField.ref id =>
        match dataResults.find? (fun o => o.key == id) with
        | some o => RefField.payload o
        | none => RefField.ref id) }

/-- An element of the expanded output stream: either the original
envelope passed through (when it carried no value), or an object derived
from the envelope's value. -/
inductive PipelineElem where
  | msg (m : QueryResultMsg)
  | obj (v : QueryResultValueMsg)
deriving DecidableEq, Repr

/-- MediachainNode.remoteData, with the connection plumbing abstracted
into the environment: one aggregated data-fetch RPC for the given keys,
returning the collected data results or the propagated fetch error. -/
def Node.remoteData (env : Env) (keys : List String) :
    Except Err (List DataObject) :=
  match env.dataFetch keys with
  | Except.error e => Except.error (Err.fetchFailure e)
  | Except.ok objs => Except.ok objs

/-- MediachainNode._expandQueryResultData: collect the value's object
ids; with fewer than one id resolve with the value itself; otherwise
issue one aggregated data fetch (remoteData) for exactly those ids and
expand the value with the results.  The second component records the
data-fetch calls made, each as its list of keys. -/
def Node.expandQueryResultData (env : Env) (result : QueryResultValueMsg) :
    Except Err QueryResultValueMsg × List (List String) :=
  let objectIds := objectIdsForQueryResult result
  if objectIds.length < 1 then (Except.ok result, [])
  else
    match Node.remoteData env objectIds with
    | Except.error e => (Except.error e, [objectIds])
    | Except.ok dataResults =>
      (Except.ok (expandQueryResult result dataResults), [objectIds])

/-- The per-element mapping of the paramap stage in
MediachainNode.remoteQueryWithDataStream: an envelope with no value is
passed through unchanged; otherwise its value is expanded via
_expandQueryResultData and the resulting object replaces the envelope. -/
def expandElem (env : Env) (q : QueryResultMsg) :
    Except Err PipelineElem × List (List String) :=
  match q.value with
  | none => (Except.ok (PipelineElem.msg q), [])
  | some v =>
    match Node.expandQueryResultData env v with
    | (Except.error e, calls) => (Except.error e, calls)
    | (Except.ok out, calls) => (Except.ok (PipelineElem.obj out), calls)

/-- The paramap arguments at the call site in
MediachainNode.remoteQueryWithDataStream: the stage is applied with only
the mapping function, so no width (concurrency bound) argument and no
ordering argument are passed; none means the argument is absent and the
library default applies. -/
structure ParamapArgs where
  width : Option Nat
  inOrder : Option Bool
deriving DecidableEq, Repr

/-- The arguments actually passed to paramap in
remoteQueryWithDataStream (source lines 282 to 290): only the mapping
function, no width and no ordering argument. -/
def remoteQueryWithDataStreamParamapArgs : ParamapArgs :=
  { width := none, inOrder := none }

/-- The parameters of MediachainNode.remoteQueryWithDataStream as
declared in the source: a peer reference and a query string; the caller
has no further argument. -/
def remoteQueryWithDataStreamParams : List String :=
  ["peer", "queryString"]

/-- The expansion pipeline as delivered to the consumer, element by
element in input order: each element is expanded with expandElem; the
first failing element terminates the stream with its error, after every
earlier element has been delivered.  Returns the delivered elements and
the optional terminal error. -/
def pipelineRun (env : Env) : List QueryResultMsg → List PipelineElem × Option Err
  | [] => ([], none)
  | q :: rest =>
    match expandElem env q with
    | (Except.error e, _) => ([], some e)
    | (Except.ok out, _) =>
      let tail := pipelineRun env rest
      (out :: tail.1, tail.2)

/-! Concrete fixtures used by the witness theorems. -/

/-- A sample target peer identity. -/
def samplePeerId : PeerId := { b58 := "QmTargetPeer" }

/-- A sample resolved peer info for the target peer. -/
def samplePeerInfo : PeerInfo :=
  { id := samplePeerId, multiaddrs := [{ addr := "/ip4/10.0.0.2/tcp/9001" }] }

/-- A sample directory peer info. -/
def sampleDirInfo : PeerInfo :=
  { id := { b58 := "QmDirectory" }, multiaddrs := [{ addr := "/ip4/10.0.0.1/tcp/9000" }] }

/-- The local node's own peer info. -/
def sampleSelf : PeerInfo :=
  { id := { b58 := "QmSelf" }, multiaddrs := [{ addr := "/ip4/127.0.0.1/tcp/9002" }] }

/-- A node with a configured directory binding. -/
def nodeWithDir : Node :=
  { peerInfo := sampleSelf, directory := some sampleDirInfo, infoMessage := "(aleph)" }

/-- A node with no directory binding. -/
def nodeNoDir : Node :=
  { peerInfo := sampleSelf, directory := none, infoMessage := "(aleph)" }

/-- A baseline environment: one string fails multihash validation, the
peer book is empty, dials succeed, one string inflates as a multiaddr,
the directory answers lookups with an absent record, and data fetches
return nothing. -/
def baseEnv : Env :=
  { multihashFromB58 := fun s =>
      if s = "not-a-multihash" then Except.error "Non-base58 character"
      else Except.ok (),
    peerBook := fun _ => none,
    dial := fun _ _ => Except.ok (),
    inflateMultiaddr := fun s =>
      if s = "/ip4/10.0.0.3/tcp/9003/ipfs/QmOther" then Except.ok samplePeerInfo
      else Except.error "no protocol with name",
    lookupResponse := fun _ => { peer := none },
    dataFetch := fun _ => Except.ok [] }

/-- The baseline environment with the target peer cached in the
transport's peer book. -/
def envCached : Env :=
  { baseEnv with
    peerBook := fun s => if s = "QmTargetPeer" then some samplePeerInfo else none }

/-- The baseline environment with a data store holding one object under
the key objA; every other fetch fails. -/
def envData : Env :=
  { baseEnv with
    dataFetch := fun keys =>
      if keys = ["objA"] then Except.ok [{ key := "objA", data := "payloadA" }]
      else Except.error "object not found" }

/-! Theorems settling the claims. -/

/-- C2: for every node whose directory binding is unset, register fails
with the no-directory-configured error without dialing, and lookup of a
well-formed peer id string that misses the peer-book cache also fails
with the no-directory-configured error without dialing; the empty effect
lists record that no dial was made. -/
theorem register_and_lookup_fail_without_directory (n : Node) (env : Env)
    (s : String)
    (hdir : n.directory = none)
    (hvalid : env.multihashFromB58 s = Except.ok ())
    (hmiss : env.peerBook s = none) :
    n.register env = (Except.error Err.noDirectoryRegister, []) ∧
    n.lookup env (Sum.inl s) = (Except.error Err.noDirectoryLookup, []) := by
  constructor
  · simp [Node.register, hdir]
  · simp [Node.lookup, Node.lookupResolved, hvalid, hmiss, hdir]

/-- Witness for C2 at a concrete node and environment. -/
theorem register_and_lookup_fail_without_directory_witness :
    nodeNoDir.register baseEnv = (Except.error Err.noDirectoryRegister, []) ∧
    nodeNoDir.lookup baseEnv (Sum.inl "QmTargetPeer") =
      (Except.error Err.noDirectoryLookup, []) :=
  register_and_lookup_fail_without_directory nodeNoDir baseEnv "QmTargetPeer"
    rfl rfl rfl

/-- C3: for every string argument on which multihash validation fails,
lookup rejects with the invalid-peer-id error wrapping the validation
message and performs zero dials and zero network calls (empty effect
trace); the result does not depend on the peer book, the directory
binding, or the network, all of which are universally quantified here. -/
theorem lookup_rejects_invalid_string (n : Node) (env : Env) (s msg : String)
    (hinvalid : env.multihashFromB58 s = Except.error msg) :
    n.lookup env (Sum.inl s) = (Except.error (Err.invalidPeerId msg), []) := by
  simp [Node.lookup, hinvalid]

/-- Witness for C3 at a concrete malformed peer id string. -/
theorem lookup_rejects_invalid_string_witness :
    nodeWithDir.lookup baseEnv (Sum.inl "not-a-multihash") =
      (Except.error (Err.invalidPeerId "Non-base58 character"), []) :=
  lookup_rejects_invalid_string nodeWithDir baseEnv "not-a-multihash"
    "Non-base58 character" rfl

/-- C4: for every well-formed peer id string with a live peer-book
entry, lookup resolves immediately with the cached peer info and the
effect trace is empty: no directory dial or other network call. -/
theorem lookup_returns_cached_entry (n : Node) (env : Env) (s : String)
    (pi : PeerInfo)
    (hvalid : env.multihashFromB58 s = Except.ok ())
    (hhit : env.peerBook s = some pi) :
    n.lookup env (Sum.inl s) = (Except.ok (some pi), []) := by
  simp [Node.lookup, Node.lookupResolved, hvalid, hhit]

/-- Witness for C4 with the target peer cached in the peer book. -/
theorem lookup_returns_cached_entry_witness :
    nodeWithDir.lookup envCached (Sum.inl "QmTargetPeer") =
      (Except.ok (some samplePeerInfo), []) :=
  lookup_returns_cached_entry nodeWithDir envCached "QmTargetPeer"
    samplePeerInfo rfl rfl

/-- C6: when the configured directory answers the lookup dial with an
absent record, lookup resolves successfully with none: absence is a
valid non-error outcome, produced after exactly one dial to the
directory on the lookup protocol. -/
theorem lookup_absent_record_is_success (n : Node) (env : Env) (s : String)
    (dir : PeerInfo)
    (hvalid : env.multihashFromB58 s = Except.ok ())
    (hmiss : env.peerBook s = none)
    (hdir : n.directory = some dir)
    (hdial : env.dial dir Protocol.dirLookup = Except.ok ())
    (habsent : env.lookupResponse s = { peer := none }) :
    n.lookup env (Sum.inl s) =
      (Except.ok none, [Effect.dial dir Protocol.dirLookup]) := by
  simp [Node.lookup, Node.lookupResolved, lookupResponseToPeerInfo,
    hvalid, hmiss, hdir, hdial, habsent]

/-- Witness for C6 at a concrete node and directory environment. -/
theorem lookup_absent_record_is_success_witness :
    nodeWithDir.lookup baseEnv (Sum.inl "QmTargetPeer") =
      (Except.ok none, [Effect.dial sampleDirInfo Protocol.dirLookup]) :=
  lookup_absent_record_is_success nodeWithDir baseEnv "QmTargetPeer"
    sampleDirInfo rfl rfl rfl rfl rfl

/-- C10: for every PeerId object argument, lookup converts it to its
base-58 string and proceeds directly to resolution, bypassing the
multihash validation branch entirely (the environment's validator is
universally quantified and never consulted), so the result is never the
invalid-peer-id rejection. -/
theorem lookup_peerId_skips_validation (n : Node) (env : Env) (p : PeerId)
    (msg : String) :
    n.lookup env (Sum.inr p) = n.lookupResolved env p.toB58String ∧
    (n.lookup env (Sum.inr p)).1 ≠ Except.error (Err.invalidPeerId msg) := by
  refine ⟨rfl, ?_⟩
  show (n.lookupResolved env p.toB58String).1 ≠ Except.error (Err.invalidPeerId msg)
  unfold Node.lookupResolved
  cases h1 : env.peerBook p.toB58String with
  | some pi => simp
  | none =>
    cases h2 : n.directory with
    | none => simp
    | some dir =>
      cases h3 : env.dial dir Protocol.dirLookup with
      | error e => simp [h3]
      | ok u => simp [h3]

/-- Witness for C10 at a concrete PeerId argument. -/
theorem lookup_peerId_skips_validation_witness :
    nodeWithDir.lookup baseEnv (Sum.inr samplePeerId) =
      nodeWithDir.lookupResolved baseEnv samplePeerId.toB58String ∧
    (nodeWithDir.lookup baseEnv (Sum.inr samplePeerId)).1 ≠
      Except.error (Err.invalidPeerId "Non-base58 character") :=
  lookup_peerId_skips_validation nodeWithDir baseEnv samplePeerId
    "Non-base58 character"

/-- C1: for every node with a configured directory binding whose dial on
the register protocol succeeds, register resolves to true with exactly
one dial to the directory on dir.register followed by the scheduling of
the heartbeat loop (no emission effects are awaited: the caller gets the
result as soon as the loop is scheduled); the scheduled interval is
5000 * 60 ms, that is 300 seconds; the loop runs through an abortable
stage; emission 0 is immediate and, unaborted, emission k happens
exactly when the connection is still open at k times 300 seconds. -/
theorem register_dials_and_schedules_heartbeat (n : Node) (env : Env)
    (dir : PeerInfo) (connOpenMs k : Nat)
    (hdir : n.directory = some dir)
    (hdial : env.dial dir Protocol.dirRegister = Except.ok ()) :
    n.register env =
      (Except.ok true,
        [Effect.dial dir Protocol.dirRegister,
         Effect.scheduleHeartbeat { info := peerInfoProtoMarshal n.peerInfo }
           registerHeartbeatIntervalMs true]) ∧
    registerHeartbeatIntervalMs = 300 * 1000 ∧
    heartbeatEmits registerHeartbeatIntervalMs connOpenMs none 0 = true ∧
    (heartbeatEmits registerHeartbeatIntervalMs connOpenMs none k = true ↔
      k * (300 * 1000) ≤ connOpenMs) := by
  refine ⟨?_, rfl, ?_, ?_⟩
  · simp [Node.register, hdir, hdial]
  · simp [heartbeatEmits]
  · simp [heartbeatEmits, registerHeartbeatIntervalMs]

/-- Witness for C1 at a concrete node, environment and two heartbeat
ticks. -/
theorem register_dials_and_schedules_heartbeat_witness :
    nodeWithDir.register baseEnv =
      (Except.ok true,
        [Effect.dial sampleDirInfo Protocol.dirRegister,
         Effect.scheduleHeartbeat
           { info := peerInfoProtoMarshal nodeWithDir.peerInfo }
           registerHeartbeatIntervalMs true]) ∧
    heartbeatEmits registerHeartbeatIntervalMs 600000 none 2 = true := by
  have h := register_dials_and_schedules_heartbeat nodeWithDir baseEnv
    sampleDirInfo 600000 2 rfl rfl
  exact ⟨h.1, (h.2.2.2).mpr (by norm_num)⟩

/-- C5: peer resolution dispatches on the reference shape: a PeerInfo is
returned as-is with no effects; a string starting with the slash marker
is decoded directly as a multiaddr, a successful decode resolving with
the inflated peer info and a failed decode rejecting with the
invalid-multiaddr error, with no effects either way; a string not
starting with the marker and a PeerId object are both delegated to
lookup; an absent lookup result passes through resolution transparently
as a success, and openConnection converts that absence into the fatal
unable-to-locate-peer error without dialing further. -/
theorem resolution_dispatch_and_absence (n : Node) (env : Env)
    (pi pib : PeerInfo) (p : PeerId) (s sa sb : String) (msg : String)
    (protocol : Protocol)
    (hsa : stringStartsWithSlash sa = true)
    (hfaila : env.inflateMultiaddr sa = Except.error msg)
    (hsb : stringStartsWithSlash sb = true)
    (hokb : env.inflateMultiaddr sb = Except.ok pib)
    (hs : stringStartsWithSlash s = false)
    (habsent : (n.lookupIfNeeded env (PeerReference.pid p)).1 = Except.ok none) :
    n.lookupIfNeeded env (PeerReference.info pi) = (Except.ok (some pi), []) ∧
    n.lookupIfNeeded env (PeerReference.str sa) =
      (Except.error (Err.invalidMultiaddr msg), []) ∧
    n.lookupIfNeeded env (PeerReference.str sb) = (Except.ok (some pib), []) ∧
    n.lookupIfNeeded env (PeerReference.str s) = n.lookup env (Sum.inl s) ∧
    n.lookupIfNeeded env (PeerReference.pid p) = n.lookup env (Sum.inr p) ∧
    n.openConnection env (PeerReference.pid p) protocol =
      (Except.error Err.unableToLocatePeer,
        (n.lookupIfNeeded env (PeerReference.pid p)).2) := by
  refine ⟨rfl, ?_, ?_, ?_, rfl, ?_⟩
  · simp [Node.lookupIfNeeded, hsa, hfaila]
  · simp [Node.lookupIfNeeded, hsb, hokb]
  · simp [Node.lookupIfNeeded, hs]
  · rcases hq : n.lookupIfNeeded env (PeerReference.pid p) with ⟨r, effs⟩
    rw [hq] at habsent
    simp only at habsent
    subst habsent
    simp [Node.openConnection, hq]

/-- Witness for C5 at concrete references: a PeerInfo reference, a bad
and a good multiaddr string, a bare id string, and a PeerId unknown to
the directory. -/
theorem resolution_dispatch_and_absence_witness :
    nodeWithDir.lookupIfNeeded baseEnv (PeerReference.info samplePeerInfo) =
      (Except.ok (some samplePeerInfo), []) ∧
    nodeWithDir.lookupIfNeeded baseEnv (PeerReference.str "/bogus") =
      (Except.error (Err.invalidMultiaddr "no protocol with name"), []) ∧
    nodeWithDir.lookupIfNeeded baseEnv
        (PeerReference.str "/ip4/10.0.0.3/tcp/9003/ipfs/QmOther") =
      (Except.ok (some samplePeerInfo), []) ∧
    nodeWithDir.lookupIfNeeded baseEnv (PeerReference.str "QmTargetPeer") =
      nodeWithDir.lookup baseEnv (Sum.inl "QmTargetPeer") ∧
    nodeWithDir.lookupIfNeeded baseEnv (PeerReference.pid samplePeerId) =
      nodeWithDir.lookup baseEnv (Sum.inr samplePeerId) ∧
    nodeWithDir.openConnection baseEnv (PeerReference.pid samplePeerId)
        Protocol.nodePing =
      (Except.error Err.unableToLocatePeer,
        (nodeWithDir.lookupIfNeeded baseEnv (PeerReference.pid samplePeerId)).2) :=
  resolution_dispatch_and_absence nodeWithDir baseEnv samplePeerInfo
    samplePeerInfo samplePeerId "QmTargetPeer" "/bogus"
    "/ip4/10.0.0.3/tcp/9003/ipfs/QmOther" "no protocol with name"
    Protocol.nodePing (by decide) rfl (by decide) rfl (by decide) rfl

/-- A query-result value that references zero object ids. -/
def zeroRefValue : QueryResultValueMsg := { base := "statement", fields := [] }

/-- An envelope carrying the zero-reference value. -/
def zeroRefMsg : QueryResultMsg := { value := some zeroRefValue, raw := "envelope" }

/-- A query-result value referencing the stored object objA. -/
def refValue : QueryResultValueMsg :=
  { base := "statement", fields := [RefField.ref "objA"] }

/-- An envelope carrying the objA-referencing value. -/
def refMsg : QueryResultMsg := { value := some refValue, raw := "envelope" }

/-- An envelope with no value payload. -/
def noValMsg : QueryResultMsg := { value := none, raw := "end" }

/-- The stored data object behind key objA in envData. -/
def objA : DataObject := { key := "objA", data := "payloadA" }

/-- A query-result value referencing a key the data store cannot serve. -/
def failValue : QueryResultValueMsg :=
  { base := "statement", fields := [RefField.ref "objMissing"] }

/-- An envelope carrying the failing value. -/
def failMsg : QueryResultMsg := { value := some failValue, raw := "envelope" }

/-- Helper: when every element of the first segment expands successfully,
the pipeline delivers that whole segment, one output per input and with
no terminal error of its own, and then continues into the rest of the
input unchanged. -/
theorem pipelineRun_ok_append (env : Env) (as rest : List QueryResultMsg)
    (hok : ∀ q ∈ as, ∃ out, (expandElem env q).1 = Except.ok out) :
    pipelineRun env (as ++ rest)
      = ((pipelineRun env as).1 ++ (pipelineRun env rest).1,
          (pipelineRun env rest).2) ∧
    (pipelineRun env as).1.length = as.length ∧
    (pipelineRun env as).2 = none := by
  induction as with
  | nil => simp [pipelineRun]
  | cons q as ih =>
    obtain ⟨ha, hlen, hnone⟩ := ih (fun q2 hq2 => hok q2 (List.mem_cons_of_mem q hq2))
    obtain ⟨out, hout⟩ := hok q (List.mem_cons_self q as)
    rcases hpair : expandElem env q with ⟨r, calls⟩
    rw [hpair] at hout
    simp only at hout
    subst hout
    refine ⟨?_, ?_, ?_⟩
    · show pipelineRun env (q :: (as ++ rest)) = _
      simp [pipelineRun, hpair, ha, hnone]
    · simp [pipelineRun, hpair, hlen]
    · simp [pipelineRun, hpair, hnone]

/-- C7 counterexample: an element that carries a value referencing zero
object ids is not passed through unchanged: the pipeline replaces the
envelope by its unwrapped value field, so the output differs from the
input element. -/
theorem expansion_zero_ref_not_identity :
    (expandElem baseEnv zeroRefMsg).1 = Except.ok (PipelineElem.obj zeroRefValue) ∧
    (expandElem baseEnv zeroRefMsg).1 ≠ Except.ok (PipelineElem.msg zeroRefMsg) := by
  refine ⟨rfl, ?_⟩
  rw [show (expandElem baseEnv zeroRefMsg).1
      = Except.ok (PipelineElem.obj zeroRefValue) from rfl]
  intro h
  injection h with h2
  exact PipelineElem.noConfusion h2

/-- C7 (amended): with every fetch succeeding, the pipeline output has
the same length as the input and no terminal error; an element with no
value payload passes through unchanged with no fetch call; an element
whose value references zero object ids is replaced by that value itself,
unchanged and with no fetch call; an element whose value references one
or more ids is replaced by the value with its referenced fields holding
the payloads obtained through a single aggregated data-fetch RPC for
exactly that element's ids, whose result is the hypothesis' direct
remoteData outcome for the same ids. -/
theorem expansion_pipeline_behavior (env : Env) (qs : List QueryResultMsg)
    (raw : String) (v0 v1 : QueryResultValueMsg) (objs : List DataObject)
    (hok : ∀ q ∈ qs, ∃ out, (expandElem env q).1 = Except.ok out)
    (hz : objectIdsForQueryResult v0 = [])
    (hnz : objectIdsForQueryResult v1 ≠ [])
    (hfetch : Node.remoteData env (objectIdsForQueryResult v1) = Except.ok objs) :
    (pipelineRun env qs).1.length = qs.length ∧
    (pipelineRun env qs).2 = none ∧
    expandElem env { value := none, raw := raw } =
      (Except.ok (PipelineElem.msg { value := none, raw := raw }), []) ∧
    expandElem env { value := some v0, raw := raw } =
      (Except.ok (PipelineElem.obj v0), []) ∧
    expandElem env { value := some v1, raw := raw } =
      (Except.ok (PipelineElem.obj (expandQueryResult v1 objs)),
        [objectIdsForQueryResult v1]) := by
  obtain ⟨-, hlen, hnone⟩ := pipelineRun_ok_append env qs [] hok
  refine ⟨hlen, hnone, rfl, ?_, ?_⟩
  · simp [expandElem, Node.expandQueryResultData, hz]
  · have hlen1 : ¬ (objectIdsForQueryResult v1).length < 1 := by
      cases h : objectIdsForQueryResult v1 with
      | nil => exact absurd h hnz
      | cons a l => simp
    simp [expandElem, Node.expandQueryResultData, hlen1, hfetch]

/-- Witness for the amended C7 at a concrete three-element stream over a
store holding objA. -/
theorem expansion_pipeline_behavior_witness :
    (pipelineRun envData [noValMsg, zeroRefMsg, refMsg]).1.length = 3 ∧
    (pipelineRun envData [noValMsg, zeroRefMsg, refMsg]).2 = none ∧
    expandElem envData { value := none, raw := "end" } =
      (Except.ok (PipelineElem.msg { value := none, raw := "end" }), []) ∧
    expandElem envData { value := some zeroRefValue, raw := "end" } =
      (Except.ok (PipelineElem.obj zeroRefValue), []) ∧
    expandElem envData { value := some refValue, raw := "end" } =
      (Except.ok (PipelineElem.obj (expandQueryResult refValue [objA])),
        [objectIdsForQueryResult refValue]) := by
  have hok : ∀ q ∈ [noValMsg, zeroRefMsg, refMsg],
      ∃ out, (expandElem envData q).1 = Except.ok out := by
    intro q hq
    simp only [List.mem_cons, List.not_mem_nil, or_false] at hq
    rcases hq with h | h | h
    · subst h; exact ⟨PipelineElem.msg noValMsg, rfl⟩
    · subst h; exact ⟨PipelineElem.obj zeroRefValue, rfl⟩
    · subst h; exact ⟨PipelineElem.obj (expandQueryResult refValue [objA]), rfl⟩
  exact expansion_pipeline_behavior envData [noValMsg, zeroRefMsg, refMsg]
    "end" zeroRefValue refValue [objA] hok rfl (by decide) rfl

/-- C8: a fetch failure for one element fails exactly that element's
position in the delivered sequence: with every element of the first
segment succeeding and element b failing, the pipeline delivers the
whole expanded first segment, one output per input, and then terminates
with b's error at b's position; the suffix cs is universally quantified
and absent from the conclusion, so the delivered elements and the error
never depend on anything past the failure point: the pipeline does not
buffer the whole result set. -/
theorem expansion_pipeline_localized_failure (env : Env)
    (as : List QueryResultMsg) (b : QueryResultMsg)
    (cs : List QueryResultMsg) (e : Err)
    (hok : ∀ q ∈ as, ∃ out, (expandElem env q).1 = Except.ok out)
    (hfail : (expandElem env b).1 = Except.error e) :
    pipelineRun env (as ++ b :: cs) = ((pipelineRun env as).1, some e) ∧
    (pipelineRun env as).1.length = as.length ∧
    (pipelineRun env as).2 = none := by
  obtain ⟨ha, hlen, hnone⟩ := pipelineRun_ok_append env as (b :: cs) hok
  rcases hpair : expandElem env b with ⟨r, calls⟩
  rw [hpair] at hfail
  simp only at hfail
  subst hfail
  refine ⟨?_, hlen, hnone⟩
  rw [ha]
  simp [pipelineRun, hpair]

/-- Witness for C8: a stream whose middle element references a key the
store cannot serve; the first element is delivered, the stream then
fails with that element's fetch error, independently of the suffix. -/
theorem expansion_pipeline_localized_failure_witness :
    pipelineRun envData ([zeroRefMsg] ++ failMsg :: [refMsg]) =
      ((pipelineRun envData [zeroRefMsg]).1,
        some (Err.fetchFailure "object not found")) ∧
    (pipelineRun envData [zeroRefMsg]).1.length = 1 ∧
    (pipelineRun envData [zeroRefMsg]).2 = none := by
  have hok : ∀ q ∈ [zeroRefMsg], ∃ out, (expandElem envData q).1 = Except.ok out := by
    intro q hq
    simp only [List.mem_singleton] at hq
    subst hq
    exact ⟨PipelineElem.obj zeroRefValue, rfl⟩
  exact expansion_pipeline_localized_failure envData [zeroRefMsg] failMsg [refMsg]
    (Err.fetchFailure "object not found") hok rfl

/-- C9 counterexample: the paramap call site configures no finite
concurrency bound at all: the width argument is absent, so the fan-out
is not limited by a finite bound fixed in this source, and there is no
bound for a caller to set to 1. -/
theorem paramap_width_is_absent :
    remoteQueryWithDataStreamParamapArgs.width = none ∧
    remoteQueryWithDataStreamParamapArgs.width.isSome = false :=
  ⟨rfl, rfl⟩

/-- C9 (amended): the pipeline's paramap stage is invoked with only its
mapping function: no width argument fixing a concurrency bound and no
ordering argument are passed, so the library default governs the
fan-out; and remoteQueryWithDataStream takes only the peer reference
and the query string, leaving the caller no concurrency bound to set. -/
theorem remoteQueryWithDataStream_paramap_defaults :
    remoteQueryWithDataStreamParamapArgs = { width := none, inOrder := none } ∧
    remoteQueryWithDataStreamParams = ["peer", "queryString"] :=
  ⟨rfl, rfl⟩

end Aleph
